import Mathlib

/-!
# Verification of the client state and filtering engine (`src/App.tsx`)

A shallow embedding, in Lean 4, of the core of the catalog-browser client:
the debounced search/filter pipeline, the translation resolver with
fallback, the playlist toggle, the preference/persistence loaders, and the
login/logout session transitions.  Every definition mirrors the TypeScript
source in `src/App.tsx` (plus the data shapes of `src/types.ts`); JavaScript
runtime primitives used by that code (string truthiness, `String.prototype.includes`,
`toLowerCase`, `split('.')`, `JSON.parse`) are modelled explicitly below,
with `Option` for `null`/`undefined`/absent values and `Except` for thrown
exceptions.  `JSON.parse` itself is not repository code; it is taken as an
abstract partial parser (`String → Option Json`), which is all the claims
need: what matters is only whether a stored string parses or throws.

Numeric fields (`Video.id`, `Video.price`) are JavaScript numbers; the
claims only compare them for equality, so they are embedded as `Int`
(no arithmetic on them occurs anywhere in the modelled core).
-/

/-! ## Data model (`src/types.ts`) -/

/-- `Video` record from `src/types.ts`. -/
structure Video where
  id : Int
  url : String
  thumbnailUrl : String
  title : String
  description : String
  price : Int
  category : String
deriving DecidableEq, Repr

/-- `User` record from `src/types.ts`. -/
structure UserProfile where
  name : String
  email : String
  avatarUrl : String
deriving DecidableEq, Repr

/-- `ModalType` from `src/types.ts`. -/
inductive ModalType where
  | signIn
  | signUp
deriving DecidableEq, Repr

/-! ## JavaScript runtime primitives used by the core -/

/-- JavaScript values produced by `JSON.parse`, and the nodes of the
nested translation dictionaries.  Objects are association lists of
string keys (a JS object literal has no duplicate keys; lookup takes the
first match). -/
inductive Json where
  | null : Json
  | bool : Bool → Json
  | num : Int → Json
  | str : String → Json
  | arr : List Json → Json
  | obj : List (String × Json) → Json

/-- JS truthiness of a `string | null` value (`null` and `""` are falsy),
as in `if (selectedCategory)` / `if (searchQuery)` / `savedUser ? _ : _`. -/
def jsTruthyStr : Option String → Bool
  | some s => s ≠ ""
  | none => false

/-- JS truthiness of a general value; `undefined` is modelled as
`Option.none` one level up, so this covers the `result && ...` guard once
`result` is known to be a value. -/
def jsTruthy : Json → Bool
  | .null => false
  | .bool b => b
  | .num n => n ≠ 0
  | .str s => s ≠ ""
  | .arr _ => true
  | .obj _ => true

/-- `typeof x === 'object'` for a JS value (`null`, arrays and objects). -/
def jsTypeofObject : Json → Bool
  | .null => true
  | .arr _ => true
  | .obj _ => true
  | _ => false

/-- The `k in x` membership test, for the values on which the source uses
it (it is guarded there by `x && typeof x === 'object'`).  For objects,
own-key membership; for arrays, a valid decimal index.  Inherited
prototype properties (`"toString" in {}` is true in JS) are not modelled:
every such property is a function or a number, never a string and never a
further keyed mapping, so the resolver below treats hitting one exactly
like a miss — the returned string is unaffected. -/
def jsIn (k : String) : Json → Bool
  | .obj kvs => kvs.any (fun kv => kv.1 = k)
  | .arr xs => (List.range xs.length).any (fun i => toString i = k)
  | _ => false

/-- Property access `x[k]` for the values accepted by `jsIn`. -/
def jsGet (k : String) : Json → Option Json
  | .obj kvs => (kvs.find? (fun kv => kv.1 = k)).map (·.2)
  | .arr xs => (List.range xs.length).find? (fun i => toString i = k) |>.bind (xs.get? ·)
  | _ => none

/-- `String.prototype.toLowerCase` (ASCII case mapping, which is all the
catalog data exercises). -/
def jsToLower (s : String) : String := s.toLower

/-- Substring test on character lists: `sub` occurs contiguously in `l`. -/
def listContainsSub (sub l : List Char) : Bool :=
  match l with
  | [] => sub.isEmpty
  | _ :: t => sub.isPrefixOf l || listContainsSub sub t

/-- `String.prototype.includes`: `sub` is a contiguous substring of `s`
(the empty string is contained in everything, as in JS). -/
def jsIncludes (s sub : String) : Bool := listContainsSub sub.data s.data

/-! ## Filter pipeline (`src/App.tsx` lines 93–117, body of the debounced effect) -/

/-- The filter computation run when the debounce timer fires
(`src/App.tsx` 95–113).  `catalog` stands for the immutable `MOCK_VIDEOS`
list (its contents live in `constants.ts`, outside this core; every claim
quantifies over it).  Mirrors the source: the `'myPlaylist'` sentinel
selects the playlist and skips the catalog branch entirely; otherwise the
catalog is narrowed by `v.category === selectedCategory` only when
`selectedCategory` is truthy; finally a truthy `searchQuery` keeps entries
whose lower-cased title or description contains the lower-cased query. -/
def computeFilteredVideos (catalog playlist : List Video)
    (selectedCategory : Option String) (searchQuery : String) : List Video :=
  let filteredVideos :=
    if selectedCategory = some "myPlaylist" then
      playlist
    else
      let base := catalog
      if jsTruthyStr selectedCategory then
        base.filter (fun v => some v.category = selectedCategory)
      else
        base
  if jsTruthyStr (some searchQuery) then
    let lowercasedQuery := jsToLower searchQuery
    filteredVideos.filter (fun v =>
      jsIncludes (jsToLower v.title) lowercasedQuery ||
      jsIncludes (jsToLower v.description) lowercasedQuery)
  else
    filteredVideos

/-! ## Playlist toggle (`src/App.tsx` lines 192–201) -/

/-- `togglePlaylist`: the updater passed to `setPlaylist`.  If any entry
shares the video's `id` the result drops every such entry
(`filter(v => v.id !== video.id)`); otherwise the video is appended at the
end. -/
def togglePlaylist (video : Video) (currentPlaylist : List Video) : List Video :=
  if currentPlaylist.any (fun v => v.id = video.id) then
    currentPlaylist.filter (fun v => v.id ≠ video.id)
  else
    currentPlaylist ++ [video]

/-- `isVideoInPlaylist` (`src/App.tsx` 188–190). -/
def isVideoInPlaylist (playlist : List Video) (videoId : Int) : Bool :=
  playlist.any (fun video => video.id = videoId)

/-! ## Translation resolver `t` (`src/App.tsx` lines 120–146)

`TRANSLATIONS` lives in `constants.ts`, outside this core, so the resolver
is embedded as a function of the whole dictionary set: `translations lang`
is `TRANSLATIONS[lang]` (`none` when the language has no dictionary).
`key.split('.')` is `String.splitOn "."`, which agrees with JS for the
one-character separator (`"" ↦ [""]`, `"a..b" ↦ ["a","","b"]`). -/

/-- The first `for (const k of keys)` loop of `t`: starting from `result`
(`none` models `undefined`), descend one segment at a time; on a falsy
node, a non-object node, or a missing key, set `result = undefined` and
break. -/
def tWalk : Option Json → List String → Option Json
  | r, [] => r
  | r, k :: ks =>
    match r with
    | some j =>
      if jsTruthy j && (jsTypeofObject j && jsIn k j) then tWalk (jsGet k j) ks
      else none
    | none => none

/-- The fallback `for` loop of `t` (`src/App.tsx` 137–145): the same walk
over `TRANSLATIONS.en`, except that any mid-walk failure returns the key
immediately, and a non-string terminal value also yields the key. -/
def tFallbackWalk (key : String) : Option Json → List String → String
  | r, [] =>
    match r with
    | some (.str s) => s
    | _ => key
  | r, k :: ks =>
    match r with
    | some j =>
      if jsTruthy j && (jsTypeofObject j && jsIn k j) then tFallbackWalk key (jsGet k j) ks
      else key
    | none => key

/-- The resolver `t` itself: walk the current language's dictionary; if
the result is a string return it, else run the fallback walk over the
default language `"en"`. -/
def tResolve (translations : String → Option Json) (language key : String) : String :=
  let keys := key.splitOn "."
  let result := tWalk (translations language) keys
  match result with
  | some (.str s) => s
  | _ => tFallbackWalk key (translations "en") keys

/-! ## Preference and persistence loaders (`src/App.tsx` lines 25–42)

Each `useState` initializer reads one `localStorage` key;
`localStorage.getItem` returns `string | null`, modelled as
`Option String`.  `JSON.parse` is an abstract partial parser
`parse : String → Option Json`; `parse s = none` means the real
`JSON.parse(s)` throws, and initializers without a `try`/`catch`
propagate that as `Except.error`. -/

/-- `isLoggedIn` initializer: `localStorage.getItem('isLoggedIn') === 'true'`. -/
def loadIsLoggedIn (stored : Option String) : Bool := stored = some "true"

/-- `user` initializer: `savedUser ? JSON.parse(savedUser) : null`, with
no exception handler — a stored string that fails to parse throws out of
the initializer. -/
def loadUser (stored : Option String) (parse : String → Option Json) :
    Except Unit Json :=
  match stored with
  | some savedUser =>
    if jsTruthyStr (some savedUser) then
      match parse savedUser with
      | some j => .ok j
      | none => .error ()
    else .ok .null
  | none => .ok .null

/-- `theme` initializer: `(getItem('theme') as Theme) || Theme.Dark`.
The `as Theme` cast is erased at runtime; `||` keeps any truthy
(non-empty) stored string. -/
def loadTheme (stored : Option String) : String :=
  if jsTruthyStr stored then stored.getD "dark" else "dark"

/-- `language` initializer: `(getItem('language') as LanguageCode) || 'en'`. -/
def loadLanguage (stored : Option String) : String :=
  if jsTruthyStr stored then stored.getD "en" else "en"

/-- `isAutoplayEnabled` initializer: `getItem('isAutoplayEnabled') !== 'false'`. -/
def loadIsAutoplayEnabled (stored : Option String) : Bool := stored ≠ some "false"

/-- `deviceView` initializer: `(getItem('deviceView') as DeviceView) || 'desktop'`. -/
def loadDeviceView (stored : Option String) : String :=
  if jsTruthyStr stored then stored.getD "desktop" else "desktop"

/-- `playlist` initializer (`src/App.tsx` 34–42): the `JSON.parse` call is
wrapped in `try { ... } catch { console.error(...); return [] }`, so a
parse failure is caught and logged and yields the empty array; it is never
rethrown (the return type has no `Except`). -/
def loadPlaylist (stored : Option String) (parse : String → Option Json) : Json :=
  match stored with
  | some savedPlaylist =>
    if jsTruthyStr (some savedPlaylist) then
      match parse savedPlaylist with
      | some j => j
      | none => .arr []
    else .arr []
  | none => .arr []

/-- The login-related slice of the initial state, as produced by the two
independent initializers of lines 25–29. -/
structure SessionLoad where
  isLoggedIn : Bool
  user : Json

/-- Combined initial session load: the `isLoggedIn` and `user` fields are
read by two separate initializers with no cross-check; a `user` parse
failure propagates (via `loadUser`). -/
def loadSession (storedFlag storedUser : Option String)
    (parse : String → Option Json) : Except Unit SessionLoad :=
  match loadUser storedUser parse with
  | .ok u => .ok { isLoggedIn := loadIsLoggedIn storedFlag, user := u }
  | .error e => .error e

/-! ## Session state and its transitions (`src/App.tsx` lines 148–162) -/

/-- The slice of `App`'s state touched by the login/logout handlers and
the filter inputs. -/
structure AppState where
  isLoggedIn : Bool
  user : Option UserProfile
  activeModal : Option ModalType
  searchQuery : String
  selectedCategory : Option String
  playlist : List Video
deriving DecidableEq, Repr

/-- The profile installed by `handleLogin` (`src/App.tsx` 151). -/
def janeDoe : UserProfile :=
  { name := "Jane Doe", email := "jane.doe@example.com"
    avatarUrl := "https://picsum.photos/seed/user/100/100" }

/-- `handleLogin` (`src/App.tsx` 148–154): installs the fixed profile,
sets the flag, closes any modal; credentials are logged but never
checked. -/
def handleLogin (s : AppState) : AppState :=
  { s with user := some janeDoe, isLoggedIn := true, activeModal := none }

/-- `handleLogout` (`src/App.tsx` 156–162): clears the profile and the
flag, and resets the category only when it is the `'myPlaylist'`
sentinel. -/
def handleLogout (s : AppState) : AppState :=
  { s with
    user := none
    isLoggedIn := false
    selectedCategory :=
      if s.selectedCategory = some "myPlaylist" then none else s.selectedCategory }

/-! ## Debounce model (`src/App.tsx` lines 93–117)

The filter effect runs on every change of `searchQuery`,
`selectedCategory` or `playlist`: its cleanup (`clearTimeout`) cancels the
pending timer and a fresh `setTimeout(…, 300)` is armed with the new
values.  The JS event loop is single-threaded, so this is a deterministic
machine: state = at most one pending `(deadline, snapshot)`; a trigger at
time `t` first lets a pending timer whose deadline has already passed
fire, then replaces the pending timer with `(t + 300, new snapshot)`;
after the last trigger the surviving timer fires at its deadline.  `fire`
events are the executed recomputations, each tagged with the time it ran
and the input snapshot it used. -/

/-- Snapshot of the three filter inputs captured by the effect closure. -/
structure FilterInputs where
  searchQuery : String
  selectedCategory : Option String
  playlist : List Video
deriving DecidableEq, Repr

/-- The debounce quiet period (`setTimeout(..., 300)`). -/
def debounceDelay : Nat := 300

/-- Process a time-ordered list of triggers against the pending timer;
returns the list of fired recomputations `(time fired, inputs used)` in
order, including the final surviving timer. -/
def debounceRun (pending : Option (Nat × FilterInputs)) :
    List (Nat × FilterInputs) → List (Nat × FilterInputs)
  | [] => pending.toList
  | (t, q) :: es =>
    (match pending with
     | some (d, pv) => if d ≤ t then [(d, pv)] else []
     | none => []) ++ debounceRun (some (t + debounceDelay, q)) es

/-- All recomputations executed for a trigger sequence, starting with no
timer pending. -/
def debounceFires (events : List (Nat × FilterInputs)) : List (Nat × FilterInputs) :=
  debounceRun none events

/-- The visible video set each fired recomputation writes (`setVideos`). -/
def debounceResults (catalog : List Video) (events : List (Nat × FilterInputs)) :
    List (Nat × List Video) :=
  (debounceFires events).map fun e =>
    (e.1, computeFilteredVideos catalog e.2.playlist e.2.selectedCategory e.2.searchQuery)

/-- A trigger burst: times nondecreasing and each successive trigger
strictly inside the quiet period of the previous one. -/
def isBurst : List (Nat × FilterInputs) → Bool
  | [] => true
  | [_] => true
  | (t1, _) :: (t2, q2) :: r =>
    (t1 ≤ t2 && t2 < t1 + debounceDelay) && isBurst ((t2, q2) :: r)

/-! ## Spec-side definitions

For the refinement-style claims, a second set of definitions written from
the specification's wording (base-set selection as its own phase, then the
text filter; a single clean dictionary walk whose failure is a sentinel),
to be compared with the embeddings of the source above. -/

/-- Spec wording, step 1 of the filter pipeline: if the selected category
is the "my playlist" sentinel the base set is exactly the playlist
contents (the catalog/category branch is not consulted); otherwise the
catalog, narrowed to videos whose category equals the selected category
when one is selected, else the full catalog. -/
def specBaseSet (catalog playlist : List Video) (selectedCategory : Option String) :
    List Video :=
  if selectedCategory = some "myPlaylist" then playlist
  else
    match selectedCategory with
    | some c => catalog.filter (fun v => v.category = c)
    | none => catalog

/-- Spec wording, step 2 of the filter pipeline: if the query is
non-empty, keep only entries whose title or description contains the
lower-cased query as a case-insensitive substring. -/
def specTextFilter (searchQuery : String) (vs : List Video) : List Video :=
  if searchQuery = "" then vs
  else
    vs.filter (fun v =>
      jsIncludes (jsToLower v.title) (jsToLower searchQuery) ||
      jsIncludes (jsToLower v.description) (jsToLower searchQuery))

/-- Spec wording: the recomputed visible set is the text filter applied
to the base set. -/
def specVisibleVideos (catalog playlist : List Video)
    (selectedCategory : Option String) (searchQuery : String) : List Video :=
  specTextFilter searchQuery (specBaseSet catalog playlist selectedCategory)

/-- Spec wording for the translation resolver: one walk of a dictionary,
one segment at a time; failure (non-mapping node, missing segment, or a
non-string final value) is the sentinel `none`, never an exception. -/
def specResolveWalk : Option Json → List String → Option String
  | none, _ => none
  | some j, [] =>
    match j with
    | .str s => some s
    | _ => none
  | some j, k :: ks =>
    if jsTruthy j && (jsTypeofObject j && jsIn k j) then specResolveWalk (jsGet k j) ks
    else none

/-! ## Concrete fixtures

Sample catalog entries (the two-video example catalog of the
specification's testable-properties section) and small variants used to
evaluate the theorems on closed inputs. -/

/-- Example catalog entry: id 1, category "music", title "Jazz Night". -/
def jazzNight : Video :=
  { id := 1, url := "u1", thumbnailUrl := "t1", title := "Jazz Night"
    description := "late night jazz", price := 0, category := "music" }

/-- Example catalog entry: id 2, category "sports", title "Finals". -/
def finalsGame : Video :=
  { id := 2, url := "u2", thumbnailUrl := "t2", title := "Finals"
    description := "the finals", price := 0, category := "sports" }

/-- A different video record that shares `jazzNight`'s id. -/
def jazzNightDup : Video :=
  { id := 1, url := "u3", thumbnailUrl := "t3", title := "Jazz Night Rerun"
    description := "rerun", price := 0, category := "music" }

/-- The two-video example catalog. -/
def demoCatalog : List Video := [jazzNight, finalsGame]

/-- A sample session state used to evaluate the transition theorems. -/
def demoState : AppState :=
  { isLoggedIn := true, user := some janeDoe, activeModal := none
    searchQuery := "jazz", selectedCategory := some "music"
    playlist := [finalsGame] }

/-! # Theorems -/

/-! ## C1: the filter pipeline computes base-set selection then text filter -/

/-- The primary walk of `t`, keeping only a string result, agrees with the
spec's clean walk. -/
lemma tWalk_str_eq_specResolveWalk (ks : List String) (r : Option Json) :
    (match tWalk r ks with
     | some (.str s) => some s
     | _ => none) = specResolveWalk r ks := by
  induction ks generalizing r with
  | nil =>
    cases r with
    | none => rfl
    | some j => cases j <;> rfl
  | cons k ks ih =>
    cases r with
    | none => rfl
    | some j =>
      show (match (if jsTruthy j && (jsTypeofObject j && jsIn k j) then
          tWalk (jsGet k j) ks else none) with
        | some (.str s) => some s
        | _ => none) = _
      rw [specResolveWalk]
      by_cases h : (jsTruthy j && (jsTypeofObject j && jsIn k j)) = true
      · rw [if_pos h, if_pos h, ih]
      · rw [if_neg h, if_neg h]

/-- The fallback walk of `t` agrees with the spec's clean walk followed by
the raw-key default. -/
lemma tFallbackWalk_eq_specResolveWalk (key : String) (ks : List String) (r : Option Json) :
    tFallbackWalk key r ks = (specResolveWalk r ks).getD key := by
  induction ks generalizing r with
  | nil =>
    cases r with
    | none => rfl
    | some j => cases j <;> rfl
  | cons k ks ih =>
    cases r with
    | none => rfl
    | some j =>
      rw [tFallbackWalk, specResolveWalk]
      by_cases h : (jsTruthy j && (jsTypeofObject j && jsIn k j)) = true
      · rw [if_pos h, if_pos h, ih]
      · rw [if_neg h, if_neg h]; rfl

/-- C1: for every search query, selected category, playlist and catalog
(the selected category being a catalog tag, the sentinel, or none — never
the empty string, which is outside the `FilterCriteria` domain), the
filter effect computes exactly the spec's pipeline: base-set selection
(playlist contents for the "my playlist" sentinel, bypassing the
catalog/category branch; otherwise the catalog narrowed to the selected
category when one is selected) followed by the case-insensitive substring
text filter when the query is non-empty. -/
theorem filterEffect_eq_spec_pipeline (catalog playlist : List Video)
    (selectedCategory : Option String) (searchQuery : String)
    (hsc : selectedCategory ≠ some "") :
    computeFilteredVideos catalog playlist selectedCategory searchQuery =
      specVisibleVideos catalog playlist selectedCategory searchQuery := by
  unfold computeFilteredVideos specVisibleVideos specTextFilter
  have hbase :
      (if selectedCategory = some "myPlaylist" then playlist
       else if jsTruthyStr selectedCategory then
         catalog.filter (fun v => some v.category = selectedCategory)
       else catalog) = specBaseSet catalog playlist selectedCategory := by
    cases selectedCategory with
    | none => simp [jsTruthyStr, specBaseSet]
    | some c =>
      by_cases hc : c = "myPlaylist"
      · subst hc; simp [specBaseSet]
      · have hne : c ≠ "" := fun h => hsc (by rw [h])
        simp [specBaseSet, jsTruthyStr, hc, hne]
  simp only [hbase]
  by_cases hq : searchQuery = ""
  · subst hq; simp [jsTruthyStr]
  · simp [jsTruthyStr, hq]

/-- Witness for C1 at the spec's example catalog with the "sports"
category selected and an empty query. -/
theorem filterEffect_eq_spec_pipeline_witness :
    (some "sports" ≠ (some "" : Option String)) ∧
      computeFilteredVideos demoCatalog [] (some "sports") "" =
        specVisibleVideos demoCatalog [] (some "sports") "" :=
  ⟨by decide, filterEffect_eq_spec_pipeline demoCatalog [] (some "sports") "" (by decide)⟩

/-! ## C3: translation resolution is walk, fallback walk on "en", then the raw key -/

/-- C3: for every dictionary set, language and dot-separated key, the
resolver `t` equals the spec's fallback chain: the clean segment-by-segment
walk of the language's dictionary (failing on a non-mapping node, a
missing segment, or a non-string terminal); on failure the identical walk
against the default language "en"; and if that also fails, the original
key unchanged.  The embedding is a total function into `String`, so
resolution never throws and always returns a string. -/
theorem tResolve_eq_fallback_chain (translations : String → Option Json)
    (language key : String) :
    tResolve translations language key =
      ((specResolveWalk (translations language) (key.splitOn ".")).getD
        ((specResolveWalk (translations "en") (key.splitOn ".")).getD key)) := by
  simp only [tResolve]
  rw [← tWalk_str_eq_specResolveWalk, tFallbackWalk_eq_specResolveWalk]
  cases tWalk (translations language) (key.splitOn ".") with
  | none => rfl
  | some j => cases j <;> rfl

/-! ## C2: double toggle — refuted as stated, membership-only restoration holds -/

/-- C2 counterexample: on the two-video playlist `[jazzNight, finalsGame]`
(ids 1 and 2, unique), toggling `jazzNight` twice yields
`[finalsGame, jazzNight]`, not the original order: the claim
`toggle(toggle(P, v), v) == P` fails when `v` is a member that is not the
last entry. -/
theorem togglePlaylist_not_involutive :
    (List.Pairwise (fun a b => a.id ≠ b.id) [jazzNight, finalsGame]) ∧
      togglePlaylist jazzNight (togglePlaylist jazzNight [jazzNight, finalsGame]) ≠
        [jazzNight, finalsGame] := by
  decide

/-- C2 amended: toggling twice is the identity when no entry of `P`
carries `v`'s id; when some entry does, the double toggle returns `P` with
every entry carrying `v`'s id removed and `v` appended at the end — the
same membership as `P` (for id-unique `P`), with the order of the other
entries preserved but `v` moved to the last position. -/
theorem togglePlaylist_toggle_toggle (P : List Video) (v : Video) :
    ((∀ w ∈ P, w.id ≠ v.id) →
      togglePlaylist v (togglePlaylist v P) = P) ∧
    ((∃ w ∈ P, w.id = v.id) →
      togglePlaylist v (togglePlaylist v P) =
        P.filter (fun w => w.id ≠ v.id) ++ [v]) := by
  constructor
  · intro h
    have hany : P.any (fun w => w.id = v.id) = false := by
      simp only [List.any_eq_false, decide_eq_true_eq]
      exact h
    have happ : togglePlaylist v P = P ++ [v] := by
      rw [togglePlaylist, if_neg (by simp [hany])]
    rw [happ, togglePlaylist,
      if_pos (by simp [List.any_eq_true]),
      List.filter_append]
    have h1 : P.filter (fun w => w.id ≠ v.id) = P :=
      List.filter_eq_self.mpr (by simpa using h)
    have h2 : [v].filter (fun w => w.id ≠ v.id) = [] := by simp
    rw [h1, h2, List.append_nil]
  · rintro ⟨w, hw, hid⟩
    have hany : P.any (fun x => x.id = v.id) = true := by
      simp only [List.any_eq_true, decide_eq_true_eq]
      exact ⟨w, hw, hid⟩
    have hfil : togglePlaylist v P = P.filter (fun x => x.id ≠ v.id) := by
      rw [togglePlaylist, if_pos (by simp [hany])]
    have hgone : (P.filter (fun x => x.id ≠ v.id)).any (fun x => x.id = v.id) = false := by
      simp only [List.any_eq_false, decide_eq_true_eq]
      intro a ha
      have := List.mem_filter.mp ha
      simpa using this.2
    rw [hfil, togglePlaylist, if_neg (by simp [hgone])]

/-- Witness for C2's amended statement: both branches on concrete
playlists (toggle of an absent then of a present video). -/
theorem togglePlaylist_toggle_toggle_witness :
    togglePlaylist jazzNight (togglePlaylist jazzNight [finalsGame]) = [finalsGame] ∧
      togglePlaylist jazzNight (togglePlaylist jazzNight [jazzNight, finalsGame]) =
        List.filter (fun w => w.id ≠ jazzNight.id) [jazzNight, finalsGame] ++ [jazzNight] :=
  ⟨(togglePlaylist_toggle_toggle [finalsGame] jazzNight).1 (by decide),
   (togglePlaylist_toggle_toggle [jazzNight, finalsGame] jazzNight).2
     ⟨jazzNight, by decide, rfl⟩⟩

/-! ## C7: toggling an absent video appends it, exactly once -/

/-- C7: when no entry of `P` carries `v`'s id, `togglePlaylist` appends
`v` after all existing entries, and `v`'s id occurs exactly once in the
result. -/
theorem togglePlaylist_appends_absent (P : List Video) (v : Video)
    (h : ∀ w ∈ P, w.id ≠ v.id) :
    togglePlaylist v P = P ++ [v] ∧
      (togglePlaylist v P).countP (fun w => w.id = v.id) = 1 := by
  have hany : P.any (fun w => w.id = v.id) = false := by
    simp only [List.any_eq_false, decide_eq_true_eq]
    exact h
  have happ : togglePlaylist v P = P ++ [v] := by
    rw [togglePlaylist, if_neg (by simp [hany])]
  refine ⟨happ, ?_⟩
  rw [happ, List.countP_append]
  have h0 : P.countP (fun w => w.id = v.id) = 0 := by
    rw [List.countP_eq_zero]
    intro a ha
    simpa using h a ha
  simp [h0]

/-- Witness for C7: adding `jazzNight` to the playlist `[finalsGame]`. -/
theorem togglePlaylist_appends_absent_witness :
    togglePlaylist jazzNight [finalsGame] = [finalsGame] ++ [jazzNight] ∧
      (togglePlaylist jazzNight [finalsGame]).countP
        (fun w => w.id = jazzNight.id) = 1 :=
  togglePlaylist_appends_absent [finalsGame] jazzNight (by decide)

/-! ## C10: toggle restores id-uniqueness even on corrupt playlists -/

/-- C10: for every playlist `P` — even one already holding several entries
with `v`'s id — the result of a toggle holds at most one entry with `v`'s
id, and whenever any entry with that id is present the toggle removes
every such entry (the `filter` drops all matches, not just the first). -/
theorem togglePlaylist_dedupes (P : List Video) (v : Video) :
    (togglePlaylist v P).countP (fun w => w.id = v.id) ≤ 1 ∧
      (P.any (fun w => w.id = v.id) = true →
        (togglePlaylist v P).countP (fun w => w.id = v.id) = 0) := by
  by_cases h : P.any (fun w => w.id = v.id) = true
  · have hfil : togglePlaylist v P = P.filter (fun x => x.id ≠ v.id) := by
      rw [togglePlaylist, if_pos (by simp [h])]
    have h0 : (P.filter (fun x => x.id ≠ v.id)).countP (fun w => w.id = v.id) = 0 := by
      rw [List.countP_eq_zero]
      intro a ha
      have := List.mem_filter.mp ha
      simpa using this.2
    rw [hfil]
    exact ⟨by rw [h0]; exact Nat.zero_le 1, fun _ => h0⟩
  · have happ : togglePlaylist v P = P ++ [v] := by
      rw [togglePlaylist, if_neg (by simp [h])]
    have h0 : P.countP (fun w => w.id = v.id) = 0 := by
      rw [List.countP_eq_zero]
      intro a ha
      have := List.any_eq_false.mp (Bool.eq_false_iff.mpr h) a ha
      simpa using this
    constructor
    · rw [happ, List.countP_append, h0]
      simp
    · intro hc
      exact absurd hc h

/-- Witness for C10 on a corrupt playlist holding two entries with id 1:
one toggle of `jazzNight` removes both. -/
theorem togglePlaylist_dedupes_witness :
    (togglePlaylist jazzNight [jazzNight, jazzNightDup, finalsGame]).countP
        (fun w => w.id = jazzNight.id) = 0 :=
  (togglePlaylist_dedupes [jazzNight, jazzNightDup, finalsGame] jazzNight).2 (by decide)

/-! ## C4: preference loading — refuted as stated, defaults only for falsy values -/

/-- C4 counterexample: the `theme` initializer is
`(getItem('theme') as Theme) || Theme.Dark`; the cast performs no runtime
check, so the illegal stored string "purple" is accepted as the theme
instead of being replaced by the default "dark". -/
theorem loadTheme_accepts_illegal :
    loadTheme (some "purple") = "purple" ∧ loadTheme (some "purple") ≠ "dark" := by
  decide

/-- C4 amended: a missing (or empty) stored value yields the documented
default — theme "dark", language "en", autoplay true, deviceView
"desktop" — and loading never fails; but no validation is performed: any
non-empty stored string is accepted verbatim for theme, language and
deviceView, and autoplay is true for every stored value except the exact
string "false". -/
theorem preference_load_defaults :
    (loadTheme none = "dark" ∧ loadLanguage none = "en" ∧
      loadIsAutoplayEnabled none = true ∧ loadDeviceView none = "desktop") ∧
    (loadTheme (some "") = "dark" ∧ loadLanguage (some "") = "en" ∧
      loadDeviceView (some "") = "desktop") ∧
    (∀ s : String, s ≠ "" →
      loadTheme (some s) = s ∧ loadLanguage (some s) = s ∧ loadDeviceView (some s) = s) ∧
    (∀ s : String, s ≠ "false" → loadIsAutoplayEnabled (some s) = true) := by
  refine ⟨by decide, by decide, ?_, ?_⟩
  · intro s hs
    refine ⟨?_, ?_, ?_⟩ <;> simp [loadTheme, loadLanguage, loadDeviceView, jsTruthyStr, hs]
  · intro s hs
    simp [loadIsAutoplayEnabled, hs]

/-- Witness for C4's amended statement at the stored string "purple". -/
theorem preference_load_defaults_witness :
    loadTheme (some "purple") = "purple" ∧ loadLanguage (some "purple") = "purple" ∧
      loadDeviceView (some "purple") = "purple" :=
  preference_load_defaults.2.2.1 "purple" (by decide)

/-! ## C5: malformed stored JSON — caught for the playlist, thrown for the user -/

/-- C5: for every stored string that `JSON.parse` rejects, the playlist
initializer's `try`/`catch` yields the empty array, but the `user`
initializer has no handler, so the same malformed input makes loading
throw (`Except.error`) instead of yielding an absent user: the claim holds
for the playlist key and fails for the user key. -/
theorem loadUser_throws_loadPlaylist_catches (parse : String → Option Json)
    (s : String) (hs : s ≠ "") (hp : parse s = none) :
    loadPlaylist (some s) parse = Json.arr [] ∧
      loadUser (some s) parse = Except.error () := by
  constructor
  · simp [loadPlaylist, jsTruthyStr, hs, hp]
  · simp [loadUser, jsTruthyStr, hs, hp]

/-- Witness for C5 at the malformed stored string `"{"` (with the parser
that rejects every input standing in for `JSON.parse` on it). -/
theorem loadUser_throws_loadPlaylist_catches_witness :
    loadPlaylist (some "\x7b") (fun _ => none) = Json.arr [] ∧
      loadUser (some "\x7b") (fun _ => none) = Except.error () :=
  loadUser_throws_loadPlaylist_catches (fun _ => none) "\x7b" (by decide) rfl

/-! ## C6: logout clears the session and resets only the sentinel category -/

/-- C6: logout clears the user profile and the logged-in flag; it resets
the selected category to none when the category was the `'myPlaylist'`
sentinel, leaves the category unchanged in every other case, and leaves
the search query and the playlist untouched. -/
theorem handleLogout_frame (s : AppState) :
    (handleLogout s).user = none ∧
    (handleLogout s).isLoggedIn = false ∧
    (s.selectedCategory = some "myPlaylist" → (handleLogout s).selectedCategory = none) ∧
    (s.selectedCategory ≠ some "myPlaylist" →
      (handleLogout s).selectedCategory = s.selectedCategory) ∧
    (handleLogout s).searchQuery = s.searchQuery ∧
    (handleLogout s).playlist = s.playlist := by
  refine ⟨rfl, rfl, ?_, ?_, rfl, rfl⟩
  · intro h
    simp [handleLogout, h]
  · intro h
    simp [handleLogout, h]

/-- Witness for C6: logout from `demoState` (category "music") keeps the
category; logout from the same state with the sentinel selected resets
it. -/
theorem handleLogout_frame_witness :
    (handleLogout demoState).selectedCategory = demoState.selectedCategory ∧
      (handleLogout { demoState with selectedCategory := some "myPlaylist" }).selectedCategory
        = none :=
  ⟨(handleLogout_frame demoState).2.2.2.1 (by decide),
   (handleLogout_frame { demoState with selectedCategory := some "myPlaylist" }).2.2.1 rfl⟩

/-! ## C8: a burst of triggers fires exactly one recomputation, on the last values -/

lemma debounceRun_last (es : List (Nat × FilterInputs)) :
    ∀ (t : Nat) (q : FilterInputs) (tn : Nat) (qn : FilterInputs),
      isBurst ((t, q) :: es) = true → ((t, q) :: es).getLast? = some (tn, qn) →
      debounceRun (some (t + debounceDelay, q)) es = [(tn + debounceDelay, qn)] := by
  induction es with
  | nil =>
    intro t q tn qn _ hl
    have : (t, q) = (tn, qn) := by simpa using hl
    cases this
    rfl
  | cons e es ih =>
    intro t q tn qn hb hl
    obtain ⟨t2, q2⟩ := e
    have hb' : (t ≤ t2 ∧ t2 < t + debounceDelay) ∧ isBurst ((t2, q2) :: es) = true := by
      simpa [isBurst] using hb
    have hl' : ((t2, q2) :: es).getLast? = some (tn, qn) := by
      simpa [List.getLast?_cons_cons] using hl
    have hnofire : ¬ t + debounceDelay ≤ t2 := Nat.not_le.mpr hb'.1.2
    calc debounceRun (some (t + debounceDelay, q)) ((t2, q2) :: es)
        = debounceRun (some (t2 + debounceDelay, q2)) es := by
          simp [debounceRun, hnofire]
      _ = [(tn + debounceDelay, qn)] := ih t2 q2 tn qn hb'.2 hl'

/-- C8: for every trigger burst — a sequence of changes to the search
query, selected category or playlist in which each change arrives strictly
within the 300-unit quiet period of the previous one — exactly one
recomputation executes; it runs one quiet period after the last change,
uses the input snapshot of the last change, and therefore the only visible
set ever written is the one computed from the latest criteria. -/
theorem debounce_burst_single_fire (events : List (Nat × FilterInputs))
    (tn : Nat) (qn : FilterInputs) (catalog : List Video)
    (hb : isBurst events = true) (hl : events.getLast? = some (tn, qn)) :
    debounceFires events = [(tn + debounceDelay, qn)] ∧
      debounceResults catalog events =
        [(tn + debounceDelay,
          computeFilteredVideos catalog qn.playlist qn.selectedCategory qn.searchQuery)] := by
  have hfires : debounceFires events = [(tn + debounceDelay, qn)] := by
    cases events with
    | nil => simp at hl
    | cons e es =>
      obtain ⟨t, q⟩ := e
      have : debounceFires ((t, q) :: es) = debounceRun (some (t + debounceDelay, q)) es := by
        simp [debounceFires, debounceRun]
      rw [this]
      exact debounceRun_last es t q tn qn hb hl
  refine ⟨hfires, ?_⟩
  rw [debounceResults, hfires]
  rfl

/-- Witness for C8: three rapid query changes at times 0, 100, 200 (gaps
inside the 300-unit quiet period) yield exactly one recomputation, at time
500, on the last query. -/
theorem debounce_burst_single_fire_witness :
    debounceFires
        [(0, ⟨"j", none, []⟩), (100, ⟨"ja", none, []⟩), (200, ⟨"jazz", none, []⟩)] =
      [(200 + debounceDelay, ⟨"jazz", none, []⟩)] ∧
      debounceResults demoCatalog
          [(0, ⟨"j", none, []⟩), (100, ⟨"ja", none, []⟩), (200, ⟨"jazz", none, []⟩)] =
        [(200 + debounceDelay,
          computeFilteredVideos demoCatalog [] none "jazz")] :=
  debounce_burst_single_fire
    [(0, ⟨"j", none, []⟩), (100, ⟨"ja", none, []⟩), (200, ⟨"jazz", none, []⟩)]
    200 ⟨"jazz", none, []⟩ demoCatalog (by decide) rfl

/-! ## C9: flag/profile agreement — refuted for loading, holds for the operations -/

/-- C9 counterexample: storage holding `isLoggedIn ↦ "true"` with no
stored `user` loads a state whose flag is true while the user profile is
null (falsy): the two initializers read their keys independently, so
loading CAN produce a disagreeing state. -/
theorem loadSession_flag_user_disagree :
    (loadSession (some "true") none (fun _ => none)).map
        (fun sl => (sl.isLoggedIn, jsTruthy sl.user)) =
      Except.ok (true, false) := rfl

/-- C9 amended: login installs a profile and sets the flag together, and
logout clears both together, so every state produced by the session
operations satisfies "flag true iff profile present"; the initial load,
however, reads the two storage keys independently and offers no such
guarantee (see the counterexample). -/
theorem session_ops_flag_user_agree (s : AppState) :
    ((handleLogin s).isLoggedIn = true ↔ (handleLogin s).user.isSome = true) ∧
      ((handleLogout s).isLoggedIn = true ↔ (handleLogout s).user.isSome = true) := by
  constructor <;> simp [handleLogin, handleLogout]

/-- Witness for C9's amended statement at `demoState`. -/
theorem session_ops_flag_user_agree_witness :
    ((handleLogin demoState).isLoggedIn = true ↔
        (handleLogin demoState).user.isSome = true) ∧
      ((handleLogout demoState).isLoggedIn = true ↔
        (handleLogout demoState).user.isSome = true) :=
  session_ops_flag_user_agree demoState
